import Mathlib

/-!
Verification of the `strong_agent_app` workflow core against its
natural-language specification.

The development shallowly embeds:
 - `src/utils/agentRunner.ts` (`runAgent`, `categorizeAgentError`,
   `runAgentWithRetry`);
 - `src/agent/workflow/ProjectContext.ts` (`ProjectContextManager` and its
   data model);
 - `src/agent/workflow/WorkflowOrchestrator.ts` (`executeWorkflow`,
   `executeCurrentStep`, `shouldIterateBasedOnResults`,
   `handleIterationLoop`, `isCriticalError`, `finalizeWorkflow`,
   `requestApproval`).

Modelling conventions:
 - The external task executor ("agent") is a parameter.  A single attempt of
   `runner.run` either settles with a final output, rejects with a JS `Error`
   carrying a `name` and a `message`, or fails to settle before the
   per-attempt timeout (in the source, the `Promise.race` then rejects with
   `new Error('Agent execution timeout')`, whose `name` is `"Error"`).  This
   is the `ExecOutcome` type; an executor behaviour is a function from the
   attempt number (and, at the orchestration level, the stage and the
   per-stage call index) to an `ExecOutcome`.
 - JS wall-clock timestamps (`createdAt`, `updatedAt`, `startedAt`,
   `completedAt`) and log output are dropped: no claim refers to them.
 - Step ids (`step_<n>_<Date.now()>` strings) are modelled as the natural
   number `<n>`, which is unique within a run exactly as in the source
   (steps are only ever appended).
 - Agent final outputs are schema-validated by the agents SDK
   (`outputType`), so the stored `testReport` / `reviewReport` payloads are
   modelled with the fields the core reads (`failed`; `issues[].severity`).
 - The loop in `runAgentWithRetry` and the `while` loop of `executeWorkflow`
   are modelled fuel-style; the retry loop's fuel is the exact remaining
   attempt budget of the source loop, while the orchestrator loop gets an
   arbitrary fuel since the source loop need not terminate.
-/

namespace StrongAgent

/-- Schema `TestReport` (src/agent/schemas.ts): the core reads only
`failed` (and `passed` travels along); `newTests` / `coverageNote` are
never inspected by the workflow core and are dropped. -/
structure TestReport where
  passed : Nat
  failed : Nat
deriving DecidableEq, Repr

/-- Severity of a review issue, from `z.enum(['info','warn','error'])`. -/
inductive Severity where
  | info
  | warn
  | error
deriving DecidableEq, Repr

/-- One entry of `ReviewReport.issues`; the core reads only `severity`. -/
structure ReviewIssue where
  severity : Severity
deriving DecidableEq, Repr

/-- Schema `ReviewReport`: the core reads only `issues[].severity`. -/
structure ReviewReport where
  issues : List ReviewIssue
deriving DecidableEq, Repr

/-- An agent's final output.  `test` / `review` are the two payloads the
core interprets; every other stage's payload is opaque. -/
inductive AgentData where
  | test (r : TestReport)
  | review (r : ReviewReport)
  | plain (s : String)
deriving DecidableEq, Repr

/-- Result of one settled attempt of the underlying runner, as seen by
`runAgent`: the run promise resolves with a final output, rejects with an
`Error` (with its `name` and `message`), or the timeout promise wins the
race (the source then sees `new Error('Agent execution timeout')`). -/
inductive ExecOutcome where
  | ok (d : AgentData)
  | err (name msg : String)
  | timeout
deriving DecidableEq, Repr

/-- Model of `AgentRunResult` (src/utils/agentRunner.ts).  `metadata` is flattened to
its `errorType` field; `duration` / `turns` are wall-clock bookkeeping no
claim mentions. -/
structure AgentRunResult where
  success : Bool
  data : Option AgentData := none
  error : Option String := none
  errorType : Option String := none
  recoverable : Option Bool := none
deriving DecidableEq, Repr

/-- Model of `categorizeAgentError` (src/utils/agentRunner.ts, lines 102-121):
returns the `errorType` and `recoverable` flag for a raised `Error` with
the given `name`. -/
def categorizeAgentError (name : String) : String × Bool :=
  if name = "GuardrailExecutionError" then ("GuardrailExecutionError", true)
  else if name = "MaxTurnsExceededError" then ("MaxTurnsExceededError", false)
  else if name = "ModelBehaviorError" then ("ModelBehaviorError", true)
  else if name = "ToolCallError" then ("ToolCallError", true)
  else ("UnknownError", true)

/-- Model of `runAgent` (src/utils/agentRunner.ts, lines 36-97) as a function of the
outcome of the raced attempt: success yields a recoverable success result
carrying `finalOutput`; a rejection is classified by
`categorizeAgentError`; a timeout is the rejection of the race with
`new Error('Agent execution timeout')`. -/
def runAgent (o : ExecOutcome) : AgentRunResult :=
  match o with
  | .ok d => { success := true, data := some d, recoverable := some true }
  | .err name msg =>
      let c := categorizeAgentError name
      { success := false, error := some msg, errorType := some c.1,
        recoverable := some c.2 }
  | .timeout =>
      let c := categorizeAgentError "Error"
      { success := false, error := some "Agent execution timeout",
        errorType := some c.1, recoverable := some c.2 }

/-- The terminal failure built after the retry loop exhausts its attempts
(src/utils/agentRunner.ts, lines 172-179). -/
def retryExhaustedResult (retries : Nat) (lastError : String) : AgentRunResult :=
  { success := false,
    error := some ("Failed after " ++ toString retries ++
      " retry attempts. Last error: " ++ lastError),
    errorType := some "RetryExhausted",
    recoverable := some false }

/-- The backoff delay before retrying after `attempt`
(`Math.min(1000 * Math.pow(2, attempt), 5000)`). -/
def backoffDelay (attempt : Nat) : Nat :=
  min (1000 * 2 ^ attempt) 5000

/-- The body of the `for` loop of `runAgentWithRetry`
(src/utils/agentRunner.ts, lines 140-169), instrumented with the number of
executor invocations and the list of backoff sleeps performed.
`remaining = retries - attempt` is the number of attempts still allowed
after the current one; the source loop runs `attempt = 0 .. retries`. -/
def retryLoop (exec : Nat → ExecOutcome) (retries : Nat) :
    Nat → Nat → String → AgentRunResult × Nat × List Nat
  | remaining, attempt, _lastError =>
    let r := runAgent (exec attempt)
    if r.success then (r, 1, [])
    else
      let le := r.error.getD "Unknown error"
      if r.recoverable = some false then (r, 1, [])
      else
        match remaining with
        | 0 => (retryExhaustedResult retries le, 1, [])
        | rem + 1 =>
          let d := backoffDelay attempt
          let rest := retryLoop exec retries rem (attempt + 1) le
          (rest.1, rest.2.1 + 1, d :: rest.2.2)

/-- Model of `runAgentWithRetry` (src/utils/agentRunner.ts, lines 132-180),
returning the result together with the number of executor invocations and
the backoff sleeps.  `exec n` is the outcome of the `n`-th attempt. -/
def runAgentWithRetry (exec : Nat → ExecOutcome) (retries : Nat) :
    AgentRunResult × Nat × List Nat :=
  retryLoop exec retries retries 0 ""

/-- A single attempt that fails and is classified recoverable (the retry
loop will try again if budget remains). -/
def recoverableFailure (o : ExecOutcome) : Prop :=
  (runAgent o).success = false ∧ (runAgent o).recoverable = some true

instance (o : ExecOutcome) : Decidable (recoverableFailure o) := by
  unfold recoverableFailure; infer_instance

/-- If the first `k` attempts fail recoverably and attempt `k` succeeds, the
retry loop returns attempt `k`'s result after exactly `k + 1` invocations
(stated for an arbitrary starting attempt). -/
theorem retryLoop_eventually_succeeds (exec : Nat → ExecOutcome) (retries : Nat) :
    ∀ (k rem attempt : Nat) (le : String), k ≤ rem →
    (∀ i, i < k → recoverableFailure (exec (attempt + i))) →
    (runAgent (exec (attempt + k))).success = true →
    (retryLoop exec retries rem attempt le).1 = runAgent (exec (attempt + k)) ∧
    (retryLoop exec retries rem attempt le).2.1 = k + 1 := by
  intro k
  induction k with
  | zero =>
    intro rem attempt le _ _ hs
    rw [retryLoop]
    simp only [Nat.add_zero] at hs
    simp [hs]
  | succ k ih =>
    intro rem attempt le hle hfail hs
    obtain ⟨hf, hr⟩ := hfail 0 (Nat.succ_pos k)
    simp only [Nat.add_zero] at hf hr
    rcases rem with _ | rem
    · omega
    rw [retryLoop]
    simp only [hf, hr, Bool.false_eq_true, if_false, reduceCtorEq]
    have hfail1 : ∀ i, i < k → recoverableFailure (exec (attempt + 1 + i)) := by
      intro i hi
      have := hfail (i + 1) (by omega)
      rwa [show attempt + (i + 1) = attempt + 1 + i by omega] at this
    have hs1 : (runAgent (exec (attempt + 1 + k))).success = true := by
      rwa [show attempt + 1 + k = attempt + (k + 1) by omega]
    have hrec := ih rem (attempt + 1)
      ((runAgent (exec attempt)).error.getD "Unknown error") (by omega) hfail1 hs1
    simp only [hf, hr, Bool.false_eq_true, if_false, Option.some.injEq,
      Bool.true_eq_false, reduceIte]
    constructor
    · rw [show attempt + (k + 1) = attempt + 1 + k by omega]
      exact hrec.1
    · rw [hrec.2]

/-- If every attempt up to the remaining budget fails recoverably, the loop
exhausts its budget: the result is the `RetryExhausted` failure and the
executor was invoked once per allowed attempt. -/
theorem retryLoop_exhausts (exec : Nat → ExecOutcome) (retries : Nat) :
    ∀ (rem attempt : Nat) (le : String),
    (∀ i, i ≤ rem → recoverableFailure (exec (attempt + i))) →
    (retryLoop exec retries rem attempt le).1.errorType = some "RetryExhausted" ∧
    (retryLoop exec retries rem attempt le).2.1 = rem + 1 := by
  intro rem
  induction rem with
  | zero =>
    intro attempt le hfail
    obtain ⟨hf, hr⟩ := hfail 0 (Nat.le_refl 0)
    simp only [Nat.add_zero] at hf hr
    rw [retryLoop]
    simp [hf, hr, retryExhaustedResult]
  | succ rem ih =>
    intro attempt le hfail
    obtain ⟨hf, hr⟩ := hfail 0 (Nat.zero_le _)
    simp only [Nat.add_zero] at hf hr
    have hfail1 : ∀ i, i ≤ rem → recoverableFailure (exec (attempt + 1 + i)) := by
      intro i hi
      have := hfail (i + 1) (by omega)
      rwa [show attempt + (i + 1) = attempt + 1 + i by omega] at this
    have hrec := ih (attempt + 1) (AgentRunResult.error (runAgent (exec attempt))|>.getD "Unknown error") hfail1
    rw [retryLoop]
    simp only [hf, hr, Bool.false_eq_true, if_false, reduceCtorEq]
    exact ⟨hrec.1, by simp [hrec.2]⟩

/-- Claim C5: an executor that fails with recoverable errors exactly `k`
times (`k` below the retry budget) and then succeeds makes
`runAgentWithRetry` return a success after exactly `k + 1` invocations;
an executor that fails recoverably on every allowed attempt makes it
return a `RetryExhausted` failure after exactly `retries + 1`
invocations. -/
theorem runAgentWithRetry_retry_semantics (exec : Nat → ExecOutcome)
    (retries k : Nat) :
    (k < retries →
      (∀ i, i < k → recoverableFailure (exec i)) →
      (runAgent (exec k)).success = true →
      (runAgentWithRetry exec retries).1.success = true ∧
      (runAgentWithRetry exec retries).2.1 = k + 1) ∧
    ((∀ i, i ≤ retries → recoverableFailure (exec i)) →
      (runAgentWithRetry exec retries).1.errorType = some "RetryExhausted" ∧
      (runAgentWithRetry exec retries).2.1 = retries + 1) := by
  constructor
  · intro hk hfail hs
    have h := retryLoop_eventually_succeeds exec retries k retries 0 "" (Nat.le_of_lt hk)
      (by simpa using hfail) (by simpa using hs)
    rw [runAgentWithRetry]
    exact ⟨by rw [h.1]; simpa using hs, h.2⟩
  · intro hfail
    exact retryLoop_exhausts exec retries retries 0 "" (by simpa using hfail)

/-- Concrete executor for the C5 witness: one recoverable failure, then
success. -/
def execOneFailure : Nat → ExecOutcome := fun i =>
  if i < 1 then .err "ToolCallError" "tool exploded" else .ok (.plain "done")

/-- Concrete executor for the C5 witness: recoverable failures forever. -/
def execAlwaysFailing : Nat → ExecOutcome := fun _ =>
  .err "ModelBehaviorError" "model misbehaved"

/-- Witness for C5 at `retries = 2`: one transient failure then success
gives a success in 2 invocations; constant transient failure gives
`RetryExhausted` in 3 invocations. -/
theorem runAgentWithRetry_retry_semantics_witness :
    ((runAgentWithRetry execOneFailure 2).1.success = true ∧
      (runAgentWithRetry execOneFailure 2).2.1 = 2) ∧
    ((runAgentWithRetry execAlwaysFailing 2).1.errorType = some "RetryExhausted" ∧
      (runAgentWithRetry execAlwaysFailing 2).2.1 = 3) :=
  ⟨(runAgentWithRetry_retry_semantics execOneFailure 2 1).1 (by decide)
      (by decide) (by decide),
    (runAgentWithRetry_retry_semantics execAlwaysFailing 2 0).2 (by decide)⟩

/-- Claim C6: a first attempt failing with a non-recoverable classification
is returned immediately: one executor invocation, no backoff sleep, and
the result is exactly that first failure. -/
theorem runAgentWithRetry_nonrecoverable_short_circuit
    (exec : Nat → ExecOutcome) (retries : Nat) :
    (runAgent (exec 0)).success = false →
    (runAgent (exec 0)).recoverable = some false →
    runAgentWithRetry exec retries = (runAgent (exec 0), 1, []) := by
  intro hs hr
  rw [runAgentWithRetry, retryLoop]
  simp [hs, hr]

/-- Concrete executor for the C6 witness: fails at once with
`MaxTurnsExceededError`, which `categorizeAgentError` marks
non-recoverable. -/
def execMaxTurns : Nat → ExecOutcome := fun _ =>
  .err "MaxTurnsExceededError" "Max turns exceeded"

/-- Witness for C6: the `MaxTurnsExceededError` failure is returned as-is
after exactly one invocation and with no backoff sleeps. -/
theorem runAgentWithRetry_nonrecoverable_short_circuit_witness :
    runAgentWithRetry execMaxTurns 2 = (runAgent (execMaxTurns 0), 1, []) :=
  runAgentWithRetry_nonrecoverable_short_circuit execMaxTurns 2
    (by decide) (by decide)

/-- Counterexample to claim C7 as stated: when an attempt times out, the
failure's error category is the generic `"UnknownError"` fallback, not
`"Timeout"` (no `"Timeout"` category exists in `categorizeAgentError`). -/
theorem runAgent_timeout_category_not_timeout :
    ¬ (runAgent ExecOutcome.timeout).errorType = some "Timeout" := by
  decide

/-- Claim C7 (amended): an attempt that does not settle within the timeout
is treated as a failure with `recoverable = true` and error message
`"Agent execution timeout"`, but its error category is the generic
`"UnknownError"`, not `"Timeout"`. -/
theorem runAgent_timeout_recoverable_unknown_category :
    (runAgent ExecOutcome.timeout).success = false ∧
    (runAgent ExecOutcome.timeout).recoverable = some true ∧
    (runAgent ExecOutcome.timeout).errorType = some "UnknownError" ∧
    (runAgent ExecOutcome.timeout).error = some "Agent execution timeout" := by
  decide

/-! ## Project state (src/agent/workflow/ProjectContext.ts) -/

/-- Model of `WorkflowStage` (ProjectContext.ts, lines 5-17). -/
inductive Stage where
  | initial
  | triage
  | research
  | architecture
  | implementation
  | testing
  | review
  | devops
  | documentation
  | completed
  | failed
deriving DecidableEq, Repr

/-- The string value of each `WorkflowStage` member, used in thrown error
messages. -/
def stageName : Stage → String
  | .initial => "initial"
  | .triage => "triage"
  | .research => "research"
  | .architecture => "architecture"
  | .implementation => "implementation"
  | .testing => "testing"
  | .review => "review"
  | .devops => "devops"
  | .documentation => "documentation"
  | .completed => "completed"
  | .failed => "failed"

/-- Model of `WorkflowStatus` (ProjectContext.ts, lines 19-25). -/
inductive WStatus where
  | pending
  | in_progress
  | completed
  | failed
  | requires_approval
deriving DecidableEq, Repr

/-- Model of `WorkflowStep` (ProjectContext.ts, lines 27-38).  The string id
`step_<n>_<Date.now()>` is modelled by `<n>` (unique within a run, since
steps are only appended); `startedAt` / `completedAt` timestamps are
dropped. -/
structure WorkflowStep where
  id : Nat
  stage : Stage
  status : WStatus
  agentName : String
  result : Option AgentData := none
  error : Option String := none
  requiresApproval : Bool := false
  approved : Option Bool := none
deriving DecidableEq, Repr

/-- Model of `ProjectContext` (ProjectContext.ts, lines 42-93).  `id`, `createdAt`,
`updatedAt` and error timestamps are dropped (no claim refers to them);
`artifacts` is dropped (never touched by the orchestrator).  The error log
keeps its `(stage, error)` payload and order. -/
structure ProjectContext where
  originalRequest : String
  currentStage : Stage
  status : WStatus
  workflow : List WorkflowStep
  currentStepIndex : Nat
  triageResult : Option AgentData := none
  researchResult : Option AgentData := none
  architecturePlan : Option AgentData := none
  implementationResult : Option AgentData := none
  testReport : Option TestReport := none
  reviewReport : Option ReviewReport := none
  devopsPlan : Option AgentData := none
  docsUpdate : Option AgentData := none
  errors : List (Stage × String) := []
  iterationCount : Nat := 0
  maxIterations : Nat := 3
  pendingApprovals : List (Nat × String) := []
deriving DecidableEq, Repr

/-- Model of `ProjectContextManager.create` (ProjectContext.ts, lines 98-120). -/
def ProjectContext.create (req : String) : ProjectContext :=
  { originalRequest := req
    currentStage := .initial
    status := .pending
    workflow := []
    currentStepIndex := 0 }

/-- Model of `getCurrentStep` (ProjectContext.ts, lines 122-124). -/
def ProjectContext.getCurrentStep (ctx : ProjectContext) : Option WorkflowStep :=
  ctx.workflow[ctx.currentStepIndex]?

/-- Model of `addWorkflowStep` (ProjectContext.ts, lines 126-134): appends a step
whose id is the current workflow length. -/
def ProjectContext.addWorkflowStep (ctx : ProjectContext) (stage : Stage)
    (status : WStatus) (agentName : String) (requiresApproval : Bool) :
    ProjectContext :=
  { ctx with workflow := ctx.workflow ++
      [{ id := ctx.workflow.length, stage := stage, status := status,
         agentName := agentName, requiresApproval := requiresApproval }] }

/-- The find-and-mutate pattern of `updateStepStatus` / `approveStep`:
apply `f` to the first step whose id is `stepId`, in place; no-op when no
step matches (the source logs nothing and does not throw). -/
def updateStepList (stepId : Nat) (f : WorkflowStep → WorkflowStep) :
    List WorkflowStep → List WorkflowStep
  | [] => []
  | s :: rest =>
      if s.id = stepId then f s :: rest
      else s :: updateStepList stepId f rest

/-- Model of `updateStepStatus` (ProjectContext.ts, lines 136-147): sets the status
and, when provided, the result and error of the first step with the given
id (`if (result) ...` / `if (error) ...`). -/
def ProjectContext.updateStepStatus (ctx : ProjectContext) (stepId : Nat)
    (status : WStatus) (result : Option AgentData) (error : Option String) :
    ProjectContext :=
  let f : WorkflowStep → WorkflowStep := fun s =>
    { s with status := status,
             result := if result.isSome then result else s.result,
             error := if error.isSome then error else s.error }
  { ctx with workflow := updateStepList stepId f ctx.workflow }

/-- Model of `moveToNextStep` (ProjectContext.ts, lines 149-156): advances the
cursor only when it is not already on the last step.  (Nat subtraction in
the guard matches the JS comparison: for an empty workflow,
`0 < 0 - 1` is false just as `0 < -1` is.) -/
def ProjectContext.moveToNextStep (ctx : ProjectContext) : ProjectContext :=
  if ctx.currentStepIndex < ctx.workflow.length - 1 then
    { ctx with currentStepIndex := ctx.currentStepIndex + 1 }
  else ctx

/-- Whether `moveToNextStep` returns `true` (it moved). -/
def ProjectContext.canMoveToNextStep (ctx : ProjectContext) : Bool :=
  ctx.currentStepIndex < ctx.workflow.length - 1

/-- Model of `addError` (ProjectContext.ts, lines 158-165): appends to the error
log. -/
def ProjectContext.addError (ctx : ProjectContext) (stage : Stage)
    (error : String) : ProjectContext :=
  { ctx with errors := ctx.errors ++ [(stage, error)] }

/-- Model of `incrementIteration` (ProjectContext.ts, lines 167-170). -/
def ProjectContext.incrementIteration (ctx : ProjectContext) : ProjectContext :=
  { ctx with iterationCount := ctx.iterationCount + 1 }

/-- Model of `shouldContinueIterations` (ProjectContext.ts, lines 172-174). -/
def ProjectContext.shouldContinueIterations (ctx : ProjectContext) : Bool :=
  ctx.iterationCount < ctx.maxIterations

/-- Model of `addApprovalRequest` (ProjectContext.ts, lines 176-184): appends a
pending approval and sets the run status to `requires_approval`.  (The
orchestrator never calls it; it is part of the state object's API.) -/
def ProjectContext.addApprovalRequest (ctx : ProjectContext) (stepId : Nat)
    (message : String) : ProjectContext :=
  { ctx with pendingApprovals := ctx.pendingApprovals ++ [(stepId, message)],
             status := .requires_approval }

/-- Model of `approveStep` (ProjectContext.ts, lines 186-201): removes the matching
pending approvals, marks the step approved, and sets the run status back to
`in_progress` once nothing is pending. -/
def ProjectContext.approveStep (ctx : ProjectContext) (stepId : Nat) :
    ProjectContext :=
  let pa := ctx.pendingApprovals.filter (fun p => p.1 != stepId)
  let wf := updateStepList stepId (fun s => { s with approved := some true })
    ctx.workflow
  { ctx with pendingApprovals := pa, workflow := wf,
             status := if pa.isEmpty then .in_progress else ctx.status }

/-! ## Pipeline controller (src/agent/workflow/WorkflowOrchestrator.ts) -/

/-- Model of `WorkflowConfig` (WorkflowOrchestrator.ts, lines 23-28), with the
constructor defaults of lines 56-62.  `maxTurns` and `maxIterations` are
stored but the orchestrator never reads `maxIterations` (the run's budget
is `ProjectContext.maxIterations`). -/
structure WorkflowConfig where
  maxTurns : Nat := 10
  requireApproval : Bool := false
  maxIterations : Nat := 3
  autoApprove : Bool := false

/-- Model of `ApprovalData` (WorkflowOrchestrator.ts, lines 31-36). -/
structure ApprovalData where
  agentName : String
  stepId : Nat
  input : String
  result : Option AgentData

/-- An injected approval decision function
(`ApprovalHandler`, WorkflowOrchestrator.ts, lines 38-43), modelled as a
pure decision. -/
def ApprovalHandler : Type :=
  Nat → String → ApprovalData → ProjectContext → Bool

/-- Model of `requestApproval` (WorkflowOrchestrator.ts, lines 111-123):
auto-approve policy, fail-open when no handler is configured, otherwise the
injected handler decides. -/
def requestApprovalGate (cfg : WorkflowConfig) (handler : Option ApprovalHandler)
    (stepId : Nat) (message : String) (ad : ApprovalData)
    (ctx : ProjectContext) : Bool :=
  if cfg.autoApprove then true
  else
    match handler with
    | none => true
    | some h => h stepId message ad ctx

/-- Helper for `isCriticalError`: case-insensitive substring test standing for
`RegExp.test` with the literal patterns of lines 448-453 (none of which
contains a metacharacter). -/
def containsList (pat : List Char) : List Char → Bool
  | [] => pat.isEmpty
  | c :: rest => pat.isPrefixOf (c :: rest) || containsList pat rest

/-- The fatal message patterns of `isCriticalError`
(WorkflowOrchestrator.ts, lines 448-453). -/
def criticalPatterns : List String :=
  ["authentication failed", "permission denied", "file system error",
   "network connection failed"]

/-- ASCII lower-casing of one character, for the case-insensitive (`/i`)
pattern match of `isCriticalError` (the patterns are plain ASCII). -/
def lowerChar (c : Char) : Char :=
  if c.toNat ≥ 65 ∧ c.toNat ≤ 90 then Char.ofNat (c.toNat + 32) else c

/-- ASCII lower-casing of a character list. -/
def lowerChars (l : List Char) : List Char := l.map lowerChar

/-- Model of `isCriticalError` (WorkflowOrchestrator.ts, lines 444-456). -/
def isCriticalError (msg : String) : Bool :=
  criticalPatterns.any (fun p => containsList p.toList (lowerChars msg.toList))

/-- Which stages have an executor in the `switch` of `executeCurrentStep`
(WorkflowOrchestrator.ts, lines 245-301); the remaining stages fall through
with the initializer result `{ success: false, error: 'Unknown error' }`. -/
def stageHasAgent : Stage → Bool
  | .triage | .research | .architecture | .implementation
  | .testing | .review | .devops | .documentation => true
  | _ => false

/-- The per-stage result-slot stores of `executeCurrentStep`: on success
the agent's payload is written to the stage's slot
(`updateContext({ testReport: ... })` etc.).  The testing and review
payloads are schema-validated by the SDK, so the `as TestReport` /
`as ReviewReport` casts are modelled by extraction. -/
def storeResult (ctx : ProjectContext) (stage : Stage) (d : Option AgentData) :
    ProjectContext :=
  match stage with
  | .triage => { ctx with triageResult := d }
  | .research => { ctx with researchResult := d }
  | .architecture => { ctx with architecturePlan := d }
  | .implementation => { ctx with implementationResult := d }
  | .testing => { ctx with testReport := d.bind fun x =>
      match x with | .test t => some t | _ => none }
  | .review => { ctx with reviewReport := d.bind fun x =>
      match x with | .review r => some r | _ => none }
  | .devops => { ctx with devopsPlan := d }
  | .documentation => { ctx with docsUpdate := d }
  | _ => ctx

/-- An executor behaviour at the orchestration level: the outcome of each
attempt, per stage and per retry-wrapper call for that stage (the `Nat`
arguments are the per-stage call index and the attempt number within the
call). -/
def StageExec : Type :=
  Stage → Nat → Nat → ExecOutcome

/-- The orchestrator state: the run's `ProjectContext` plus a ghost log
with one entry per retry-wrapper call, carrying the stage and the number of
executor invocations that call made.  The log instruments the model and is
never read by the control flow except to index the executor behaviour. -/
structure OrchState where
  ctx : ProjectContext
  log : List (Stage × Nat)
deriving DecidableEq, Repr

/-- Number of retry-wrapper calls recorded for a stage. -/
def stageCallCount (log : List (Stage × Nat)) (s : Stage) : Nat :=
  (log.filter (fun e => e.1 == s)).length

/-- Total executor invocations recorded for a stage. -/
def stageInvocations (log : List (Stage × Nat)) (s : Stage) : Nat :=
  (log.filter (fun e => e.1 == s)).foldr (fun e n => e.2 + n) 0

/-- Lines 238-239 of `executeCurrentStep`: the current step object's status
is set to `in_progress` in place (before the agent runs). -/
def markCurrentStepInProgress (ctx : ProjectContext) : ProjectContext :=
  match ctx.workflow[ctx.currentStepIndex]? with
  | none => ctx
  | some s =>
      { ctx with workflow :=
          ctx.workflow.set ctx.currentStepIndex { s with status := .in_progress } }

/-- Model of `executeCurrentStep` (WorkflowOrchestrator.ts, lines 234-323):
marks the current step in progress, runs the stage's agent through
`runAgentWithRetry` (retries = 2), stores the payload on success, updates
the step status, and throws (`Except.error`) on a failure whose
`recoverable` flag is not `true` — exactly the
`if (!agentResult.recoverable) throw ...` of line 319 (a JS-falsy check,
so an absent flag also throws, as in the no-agent `switch` fallthrough). -/
def executeCurrentStep (exec : StageExec) (st : OrchState) :
    OrchState × Except String Unit :=
  match st.ctx.workflow[st.ctx.currentStepIndex]? with
  | none => (st, .ok ())
  | some step =>
    let ctx1 := markCurrentStepInProgress st.ctx
    if stageHasAgent step.stage then
      let callIdx := stageCallCount st.log step.stage
      let r := runAgentWithRetry (exec step.stage callIdx) 2
      let log1 := st.log ++ [(step.stage, r.2.1)]
      let res := r.1
      if res.success then
        let ctx2 := storeResult ctx1 step.stage res.data
        (⟨ctx2.updateStepStatus step.id .completed res.data none, log1⟩, .ok ())
      else
        let ctx3 := ctx1.updateStepStatus step.id .failed none res.error
        if res.recoverable.getD false then (⟨ctx3, log1⟩, .ok ())
        else
          (⟨ctx3, log1⟩, .error ("Critical error in " ++ stageName step.stage ++
            ": " ++ (res.error.getD "Unknown error")))
    else
      let res : AgentRunResult := { success := false, error := some "Unknown error" }
      let ctx3 := ctx1.updateStepStatus step.id .failed none res.error
      (⟨ctx3, st.log⟩, .error ("Critical error in " ++ stageName step.stage ++
        ": " ++ (res.error.getD "Unknown error")))

/-- Model of `shouldIterateBasedOnResults` (WorkflowOrchestrator.ts, lines 402-416):
the stored test report has failed checks, or the stored review report has
an issue of severity `error`. -/
def shouldIterateBasedOnResults (ctx : ProjectContext) : Bool :=
  (match ctx.testReport with
    | some t => decide (0 < t.failed)
    | none => false) ||
  (match ctx.reviewReport with
    | some r => r.issues.any (fun i => i.severity == .error)
    | none => false)

/-- Model of `handleIterationLoop` (WorkflowOrchestrator.ts, lines 418-437): when
budget remains, increment the iteration count and move the cursor to the
first implementation step (if one exists). -/
def handleIterationLoop (ctx : ProjectContext) : ProjectContext :=
  if ctx.shouldContinueIterations then
    let ctx1 := ctx.incrementIteration
    match ctx1.workflow.findIdx? (fun s => s.stage == .implementation) with
    | some i => { ctx1 with currentStepIndex := i }
    | none => ctx1
  else ctx

/-- Model of `hasMoreSteps` (WorkflowOrchestrator.ts, lines 439-442). -/
def hasMoreSteps (ctx : ProjectContext) : Bool :=
  ctx.currentStepIndex < ctx.workflow.length

/-- The `while` condition of `executeWorkflow` (line 129). -/
def loopGuard (ctx : ProjectContext) : Bool :=
  hasMoreSteps ctx && ctx.shouldContinueIterations

/-- The quality-gate tail of the loop body (lines 165-171): iterate
(rewind) or advance the cursor. -/
def afterQualityCheck (st : OrchState) : OrchState :=
  if shouldIterateBasedOnResults st.ctx then
    ⟨handleIterationLoop st.ctx, st.log⟩
  else
    ⟨st.ctx.moveToNextStep, st.log⟩

/-- One pass of the body of `executeWorkflow`'s `while` loop
(WorkflowOrchestrator.ts, lines 130-188).  The second component is `true`
when the body executed a `break` (approval declined, or a thrown error
matching `isCriticalError`).  The source's `currentStep` is a live
reference into the workflow array; its immutable fields (`id`, `stage`,
`agentName`, `requiresApproval`) are read from the pre-execution snapshot
`step0`, `approved` is untouched by `executeCurrentStep`, and the
post-execution `result` is re-read from the updated context. -/
def loopBody (exec : StageExec) (cfg : WorkflowConfig)
    (handler : Option ApprovalHandler) (st : OrchState) : OrchState × Bool :=
  match st.ctx.workflow[st.ctx.currentStepIndex]? with
  | none => (st, true)
  | some step0 =>
    let er := executeCurrentStep exec st
    let st1 := er.1
    match er.2 with
    | .error msg =>
        let ctx2 := (st1.ctx.updateStepStatus step0.id .failed none (some msg)).addError
          step0.stage msg
        (⟨ctx2, st1.log⟩, isCriticalError msg)
    | .ok _ =>
        if step0.requiresApproval && !(step0.approved.getD false) then
          let ad : ApprovalData :=
            { agentName := step0.agentName, stepId := step0.id,
              input := stageName step0.stage ++ " stage processing",
              result := (st1.ctx.workflow[st1.ctx.currentStepIndex]?).bind
                WorkflowStep.result }
          let approved := requestApprovalGate cfg handler step0.id
            ("Please approve " ++ stageName step0.stage ++ " stage") ad st1.ctx
          if approved then
            (afterQualityCheck ⟨st1.ctx.approveStep step0.id, st1.log⟩, false)
          else
            (⟨st1.ctx.updateStepStatus step0.id .failed none
                (some "User approval declined"), st1.log⟩, true)
        else (afterQualityCheck st1, false)

/-- The `while` loop of `executeWorkflow`, fuel-bounded: `none` means the
fuel ran out with the loop still running (the source loop has no bound of
its own). -/
def runLoopFuel (exec : StageExec) (cfg : WorkflowConfig)
    (handler : Option ApprovalHandler) : Nat → OrchState → Option OrchState
  | 0, _ => none
  | fuel + 1, st =>
    if loopGuard st.ctx then
      match st.ctx.workflow[st.ctx.currentStepIndex]? with
      | none => some st
      | some _ =>
        let r := loopBody exec cfg handler st
        if r.2 then some r.1 else runLoopFuel exec cfg handler fuel r.1
    else some st

/-- The state reached after at most `n` iterations of the loop (stopping
early at loop exit): the run's observable states at iteration
boundaries. -/
def runLoopIter (exec : StageExec) (cfg : WorkflowConfig)
    (handler : Option ApprovalHandler) : Nat → OrchState → OrchState
  | 0, st => st
  | fuel + 1, st =>
    if loopGuard st.ctx then
      match st.ctx.workflow[st.ctx.currentStepIndex]? with
      | none => st
      | some _ =>
        let r := loopBody exec cfg handler st
        if r.2 then r.1 else runLoopIter exec cfg handler fuel r.1
    else st

/-- Model of `initializeWorkflow` (WorkflowOrchestrator.ts, lines 205-232): the
fixed eight-step pipeline (architecture and devops require approval iff
`config.requireApproval`), then the context is moved to
`triage` / `in_progress`. -/
def initializeWorkflow (cfg : WorkflowConfig) (ctx : ProjectContext) :
    ProjectContext :=
  let ctx := ctx.addWorkflowStep .triage .pending "Triage" false
  let ctx := ctx.addWorkflowStep .research .pending "Researcher" false
  let ctx := ctx.addWorkflowStep .architecture .pending "Architect" cfg.requireApproval
  let ctx := ctx.addWorkflowStep .implementation .pending "Implementer" false
  let ctx := ctx.addWorkflowStep .testing .pending "Tester" false
  let ctx := ctx.addWorkflowStep .review .pending "Reviewer" false
  let ctx := ctx.addWorkflowStep .devops .pending "DevOps" cfg.requireApproval
  let ctx := ctx.addWorkflowStep .documentation .pending "Docs" false
  { ctx with currentStage := .triage, status := .in_progress }

/-- Model of `finalizeWorkflow` (WorkflowOrchestrator.ts, lines 458-471): sets the
run to `completed` when every step completed; otherwise it only logs a
warning and leaves the context untouched. -/
def finalizeWorkflow (ctx : ProjectContext) : ProjectContext :=
  if ctx.workflow.all (fun s => s.status == .completed) then
    { ctx with status := .completed, currentStage := .completed }
  else ctx

/-- The orchestrator state at the top of the loop, for a fresh run. -/
def initState (cfg : WorkflowConfig) (ctx0 : ProjectContext) : OrchState :=
  ⟨initializeWorkflow cfg ctx0, []⟩

/-- Model of `executeWorkflow` (WorkflowOrchestrator.ts, lines 125-203), starting
from the run state `ctx0` (as built by `ProjectContextManager.create`,
possibly adjusted through `updateContext`), fuel-bounded: `some` is the
returned context after `finalizeWorkflow`, `none` means the loop had not
exited within `fuel` iterations. -/
def executeWorkflowFuel (exec : StageExec) (cfg : WorkflowConfig)
    (handler : Option ApprovalHandler) (ctx0 : ProjectContext) (fuel : Nat) :
    Option ProjectContext :=
  (runLoopFuel exec cfg handler fuel (initState cfg ctx0)).map
    (fun st => finalizeWorkflow st.ctx)

/-! ## Concrete executor behaviours used by the scenario claims -/

/-- Clean successful payload for each stage: the test report has zero
failures, the review report has no issues. -/
def happyData : Stage → AgentData
  | .testing => .test ⟨10, 0⟩
  | .review => .review ⟨[]⟩
  | s => .plain (stageName s)

/-- An executor for which every attempt of every call of every stage
succeeds with a clean payload. -/
def happyExec : StageExec := fun s _ _ => .ok (happyData s)

/-- The orchestrator's default configuration (constructor defaults). -/
def dcfg : WorkflowConfig := {}

/-! ### One-step unfolding lemmas for the loop runners -/

/-- Unfolding `runLoopFuel` across one loop pass that neither breaks nor
exits. -/
theorem runLoopFuel_succ_continue (e : StageExec) (cfg : WorkflowConfig)
    (h : Option ApprovalHandler) (f : Nat) (st st2 : OrchState)
    (hg : loopGuard st.ctx = true)
    (hb : loopBody e cfg h st = (st2, false)) :
    runLoopFuel e cfg h (f + 1) st = runLoopFuel e cfg h f st2 := by
  conv_lhs => unfold runLoopFuel
  rw [hg]
  simp only [if_true]
  cases hscrut : st.ctx.workflow[st.ctx.currentStepIndex]? with
  | none =>
      exfalso
      unfold loopBody at hb
      rw [hscrut] at hb
      simp at hb
  | some s =>
      simp [hb]

/-- Unfolding `runLoopFuel` across one loop pass that executes `break`. -/
theorem runLoopFuel_succ_break (e : StageExec) (cfg : WorkflowConfig)
    (h : Option ApprovalHandler) (f : Nat) (st st2 : OrchState)
    (hg : loopGuard st.ctx = true)
    (hb : loopBody e cfg h st = (st2, true)) :
    runLoopFuel e cfg h (f + 1) st = some st2 := by
  conv_lhs => unfold runLoopFuel
  rw [hg]
  simp only [if_true]
  cases hscrut : st.ctx.workflow[st.ctx.currentStepIndex]? with
  | none =>
      unfold loopBody at hb
      rw [hscrut] at hb
      simp only [Prod.mk.injEq] at hb
      rw [hb.1]
  | some s =>
      simp [hb]

/-- Lemma: `runLoopFuel` exits as soon as the `while` condition fails (with fuel
to notice it). -/
theorem runLoopFuel_succ_exit (e : StageExec) (cfg : WorkflowConfig)
    (h : Option ApprovalHandler) (f : Nat) (st : OrchState)
    (hg : loopGuard st.ctx = false) :
    runLoopFuel e cfg h (f + 1) st = some st := by
  conv_lhs => unfold runLoopFuel
  rw [hg]
  simp

/-- Unfolding `runLoopIter` across one loop pass that neither breaks nor
exits. -/
theorem runLoopIter_succ_continue (e : StageExec) (cfg : WorkflowConfig)
    (h : Option ApprovalHandler) (f : Nat) (st st2 : OrchState)
    (hg : loopGuard st.ctx = true)
    (hb : loopBody e cfg h st = (st2, false)) :
    runLoopIter e cfg h (f + 1) st = runLoopIter e cfg h f st2 := by
  conv_lhs => unfold runLoopIter
  rw [hg]
  simp only [if_true]
  cases hscrut : st.ctx.workflow[st.ctx.currentStepIndex]? with
  | none =>
      exfalso
      unfold loopBody at hb
      rw [hscrut] at hb
      simp at hb
  | some s =>
      simp [hb]

/-- With the guard holding but no current step, the loop exits. -/
theorem runLoopFuel_succ_noStep (e : StageExec) (cfg : WorkflowConfig)
    (h : Option ApprovalHandler) (f : Nat) (st : OrchState)
    (hg : loopGuard st.ctx = true)
    (hs : st.ctx.workflow[st.ctx.currentStepIndex]? = none) :
    runLoopFuel e cfg h (f + 1) st = some st := by
  conv_lhs => unfold runLoopFuel
  rw [hg]
  simp [hs]

/-- Splitting the fuel of the loop runner: if `m` units of fuel are not
enough for the loop to exit, the run continues from the state reached after
those `m` passes. -/
theorem runLoopFuel_split (e : StageExec) (cfg : WorkflowConfig)
    (h : Option ApprovalHandler) :
    ∀ (m : Nat) (st : OrchState) (k : Nat),
    runLoopFuel e cfg h m st = none →
    runLoopFuel e cfg h (m + k) st =
      runLoopFuel e cfg h k (runLoopIter e cfg h m st) := by
  intro m
  induction m with
  | zero =>
    intro st k _
    rw [Nat.zero_add]
    rfl
  | succ m ih =>
    intro st k hnone
    by_cases hg : loopGuard st.ctx = true
    · cases hscrut : st.ctx.workflow[st.ctx.currentStepIndex]? with
      | none =>
          rw [runLoopFuel_succ_noStep e cfg h m st hg hscrut] at hnone
          exact absurd hnone (by simp)
      | some s =>
          rcases hbody : loopBody e cfg h st with ⟨st2, brk⟩
          cases brk with
          | true =>
              rw [runLoopFuel_succ_break e cfg h m st st2 hg hbody] at hnone
              exact absurd hnone (by simp)
          | false =>
              have h1 : runLoopFuel e cfg h m st2 = none := by
                rw [← runLoopFuel_succ_continue e cfg h m st st2 hg hbody]
                exact hnone
              have hiter : runLoopIter e cfg h (m + 1) st =
                  runLoopIter e cfg h m st2 :=
                runLoopIter_succ_continue e cfg h m st st2 hg hbody
              calc runLoopFuel e cfg h (m + 1 + k) st
                  = runLoopFuel e cfg h (m + k) st2 := by
                    rw [show m + 1 + k = (m + k) + 1 by omega]
                    exact runLoopFuel_succ_continue e cfg h (m + k) st st2 hg hbody
                _ = runLoopFuel e cfg h k (runLoopIter e cfg h m st2) :=
                    ih st2 k h1
                _ = runLoopFuel e cfg h k (runLoopIter e cfg h (m + 1) st) := by
                    rw [hiter]
    · rw [runLoopFuel_succ_exit e cfg h m st (by simpa using hg)] at hnone
      exact absurd hnone (by simp)

/-! ### Claim C1: the all-success run never terminates -/

/-- The run state reached after the eight successful pipeline passes of the
all-success run (checked below against `runLoopIter`): every step is
completed, all result slots are filled, the test report is clean, the
review report has no issues — and the cursor sits on the last
(documentation) step with the loop guard still true. -/
def happyStuckCtx : ProjectContext :=
  { originalRequest := "req",
    currentStage := Stage.triage,
    status := WStatus.in_progress,
    workflow := [
      { id := 0, stage := Stage.triage, status := WStatus.completed,
        agentName := "Triage", result := some (AgentData.plain "triage") },
      { id := 1, stage := Stage.research, status := WStatus.completed,
        agentName := "Researcher", result := some (AgentData.plain "research") },
      { id := 2, stage := Stage.architecture, status := WStatus.completed,
        agentName := "Architect", result := some (AgentData.plain "architecture") },
      { id := 3, stage := Stage.implementation, status := WStatus.completed,
        agentName := "Implementer", result := some (AgentData.plain "implementation") },
      { id := 4, stage := Stage.testing, status := WStatus.completed,
        agentName := "Tester", result := some (AgentData.test { passed := 10, failed := 0 }) },
      { id := 5, stage := Stage.review, status := WStatus.completed,
        agentName := "Reviewer", result := some (AgentData.review { issues := [] }) },
      { id := 6, stage := Stage.devops, status := WStatus.completed,
        agentName := "DevOps", result := some (AgentData.plain "devops") },
      { id := 7, stage := Stage.documentation, status := WStatus.completed,
        agentName := "Docs", result := some (AgentData.plain "documentation") }],
    currentStepIndex := 7,
    triageResult := some (AgentData.plain "triage"),
    researchResult := some (AgentData.plain "research"),
    architecturePlan := some (AgentData.plain "architecture"),
    implementationResult := some (AgentData.plain "implementation"),
    testReport := some { passed := 10, failed := 0 },
    reviewReport := some { issues := [] },
    devopsPlan := some (AgentData.plain "devops"),
    docsUpdate := some (AgentData.plain "documentation"),
    errors := [],
    iterationCount := 0,
    maxIterations := 3,
    pendingApprovals := [] }

/-- The ghost log after those eight passes: each stage's executor was
called once. -/
def happyStuckLog : List (Stage × Nat) :=
  [(Stage.triage, 1), (Stage.research, 1), (Stage.architecture, 1),
   (Stage.implementation, 1), (Stage.testing, 1), (Stage.review, 1),
   (Stage.devops, 1), (Stage.documentation, 1)]

/-- Eight loop passes of the all-success run land on `happyStuckCtx`. -/
theorem happy_reaches_stuck :
    runLoopIter happyExec dcfg none 8
        (initState dcfg (ProjectContext.create "req")) =
      ⟨happyStuckCtx, happyStuckLog⟩ := by decide

/-- Eight units of fuel are not enough for the all-success run to exit. -/
theorem happy_prefix_none :
    runLoopFuel happyExec dcfg none 8
      (initState dcfg (ProjectContext.create "req")) = none := by decide

/-- From `happyStuckCtx` the loop body re-executes the documentation step
and reproduces the very same context (only the ghost log grows):
`moveToNextStep` cannot advance past the last index while `hasMoreSteps`
still holds there, and the clean reports keep the iteration predicate
false. -/
theorem loopBody_happy_stuck (log : List (Stage × Nat)) :
    loopBody happyExec dcfg none ⟨happyStuckCtx, log⟩ =
      (⟨happyStuckCtx, log ++ [(Stage.documentation, 1)]⟩, false) := rfl

/-- The loop never exits from the stuck context, whatever the fuel. -/
theorem runLoopFuel_happy_stuck :
    ∀ (f : Nat) (log : List (Stage × Nat)),
    runLoopFuel happyExec dcfg none f ⟨happyStuckCtx, log⟩ = none
  | 0, _ => rfl
  | f + 1, log => by
      rw [runLoopFuel_succ_continue happyExec dcfg none f ⟨happyStuckCtx, log⟩
        ⟨happyStuckCtx, log ++ [(Stage.documentation, 1)]⟩
        (show loopGuard happyStuckCtx = true by decide)
        (loopBody_happy_stuck log)]
      exact runLoopFuel_happy_stuck f _

/-- Claim C1 (code bug): on the all-success run — every agent execution
succeeds, the stored test report has zero failed checks and the stored
review report has no `error`-severity issue — `executeWorkflow` does
**not** terminate.  After the last (documentation) step completes,
`moveToNextStep` cannot move (`currentStepIndex` already equals
`workflow.length - 1`) while the loop guard `currentStepIndex <
workflow.length` still holds, so the loop re-executes the last step
forever and `finalizeWorkflow` is never reached: for every fuel bound the
loop is still running. -/
theorem executeWorkflow_happy_run_never_terminates (fuel : Nat) :
    executeWorkflowFuel happyExec dcfg none (ProjectContext.create "req") fuel
      = none := by
  rw [executeWorkflowFuel]
  suffices h : runLoopFuel happyExec dcfg none fuel
      (initState dcfg (ProjectContext.create "req")) = none by
    rw [h]; rfl
  rcases Nat.lt_or_ge fuel 8 with hf | hf
  · interval_cases fuel <;> decide
  · obtain ⟨k, rfl⟩ := Nat.exists_eq_add_of_le hf
    rw [runLoopFuel_split happyExec dcfg none 8 _ k happy_prefix_none,
      happy_reaches_stuck]
    exact runLoopFuel_happy_stuck k _

/-! ### Claim C3: non-recoverable failures and the fatal-pattern break -/

/-- An executor whose architecture stage always rejects with
`MaxTurnsExceededError` (classified `recoverable = false`, message matching
no fatal pattern); every other stage succeeds cleanly. -/
def maxTurnsExec : StageExec := fun s _ _ =>
  match s with
  | .architecture => .err "MaxTurnsExceededError" "Max turns exceeded"
  | _ => .ok (happyData s)

/-- The run context while the loop spins on the failed architecture step,
parameterized by the error log accumulated so far. -/
def archStuckCtx (errs : List (Stage × String)) : ProjectContext :=
  { originalRequest := "req",
    currentStage := Stage.triage,
    status := WStatus.in_progress,
    workflow := [
      { id := 0, stage := Stage.triage, status := WStatus.completed,
        agentName := "Triage", result := some (AgentData.plain "triage") },
      { id := 1, stage := Stage.research, status := WStatus.completed,
        agentName := "Researcher", result := some (AgentData.plain "research") },
      { id := 2, stage := Stage.architecture, status := WStatus.failed,
        agentName := "Architect",
        error := some "Critical error in architecture: Max turns exceeded" },
      { id := 3, stage := Stage.implementation, status := WStatus.pending,
        agentName := "Implementer" },
      { id := 4, stage := Stage.testing, status := WStatus.pending,
        agentName := "Tester" },
      { id := 5, stage := Stage.review, status := WStatus.pending,
        agentName := "Reviewer" },
      { id := 6, stage := Stage.devops, status := WStatus.pending,
        agentName := "DevOps" },
      { id := 7, stage := Stage.documentation, status := WStatus.pending,
        agentName := "Docs" }],
    currentStepIndex := 2,
    triageResult := some (AgentData.plain "triage"),
    researchResult := some (AgentData.plain "research"),
    errors := errs,
    iterationCount := 0,
    maxIterations := 3,
    pendingApprovals := [] }

/-- The error-log entry appended on each failed pass over the architecture
step. -/
def archErrEntry : Stage × String :=
  (Stage.architecture, "Critical error in architecture: Max turns exceeded")

/-- Three loop passes land on the failed architecture step with one logged
error. -/
theorem maxTurns_reaches_arch :
    runLoopIter maxTurnsExec dcfg none 3
        (initState dcfg (ProjectContext.create "req")) =
      ⟨archStuckCtx [archErrEntry],
       [(Stage.triage, 1), (Stage.research, 1), (Stage.architecture, 1)]⟩ := by
  decide

/-- Three units of fuel are not enough for the `maxTurnsExec` run to
exit. -/
theorem maxTurns_prefix_none :
    runLoopFuel maxTurnsExec dcfg none 3
      (initState dcfg (ProjectContext.create "req")) = none := by decide

/-- The loop body on the failed architecture step marks the step failed
again, appends another error-log entry — and does **not** break, because
`isCriticalError` matches no fatal pattern in the message: the same step is
then re-executed. -/
theorem loopBody_arch_stuck (errs : List (Stage × String))
    (log : List (Stage × Nat)) :
    loopBody maxTurnsExec dcfg none ⟨archStuckCtx errs, log⟩ =
      (⟨archStuckCtx (errs ++ [archErrEntry]),
        log ++ [(Stage.architecture, 1)]⟩, false) := rfl

/-- The loop never exits from the failed architecture step. -/
theorem runLoopFuel_arch_stuck :
    ∀ (f : Nat) (errs : List (Stage × String)) (log : List (Stage × Nat)),
    runLoopFuel maxTurnsExec dcfg none f ⟨archStuckCtx errs, log⟩ = none
  | 0, _, _ => rfl
  | f + 1, errs, log => by
      rw [runLoopFuel_succ_continue maxTurnsExec dcfg none f
        ⟨archStuckCtx errs, log⟩
        ⟨archStuckCtx (errs ++ [archErrEntry]), log ++ [(Stage.architecture, 1)]⟩
        (show loopGuard (archStuckCtx errs) = true from rfl)
        (loopBody_arch_stuck errs log)]
      exact runLoopFuel_arch_stuck f _ _

/-- Counterexample to claim C3 as stated: for an executor whose
architecture stage always fails with an error classified
`recoverable = false` (here `MaxTurnsExceededError`), the main loop does
**not** break: the thrown message matches no fatal pattern, so
`isCriticalError` is false, the cursor never moves, and the run never
terminates — in particular its status never ends as `failed` (the break
decision is `isCriticalError`, not the `recoverable` flag). -/
theorem executeWorkflow_nonrecoverable_nonfatal_never_breaks (fuel : Nat) :
    executeWorkflowFuel maxTurnsExec dcfg none (ProjectContext.create "req")
      fuel = none := by
  rw [executeWorkflowFuel]
  suffices h : runLoopFuel maxTurnsExec dcfg none fuel
      (initState dcfg (ProjectContext.create "req")) = none by
    rw [h]; rfl
  rcases Nat.lt_or_ge fuel 3 with hf | hf
  · interval_cases fuel <;> decide
  · obtain ⟨k, rfl⟩ := Nat.exists_eq_add_of_le hf
    rw [runLoopFuel_split maxTurnsExec dcfg none 3 _ k maxTurns_prefix_none,
      maxTurns_reaches_arch]
    exact runLoopFuel_arch_stuck k _ _

/-- Counterexample to claim C3 as stated, in closed form: on the
`maxTurnsExec` run — whose architecture step's executor fails with an error
classified `recoverable = false` on its very first loop pass (the third) —
the loop has not broken and the run has not finished even after 50 loop
passes, so the claimed "loop breaks and the run's status ends as failed"
is false: the catch block breaks on `isCriticalError` (a message pattern
match), not on the `recoverable` flag. -/
theorem nonrecoverable_nonfatal_no_break_within_50 :
    executeWorkflowFuel maxTurnsExec dcfg none (ProjectContext.create "req") 50
      = none := by decide

/-- An executor whose architecture stage fails non-recoverably
(`MaxTurnsExceededError`) with a message matching the fatal pattern
`authentication failed`; every other stage succeeds cleanly. -/
def fatalExec : StageExec := fun s _ _ =>
  match s with
  | .architecture => .err "MaxTurnsExceededError" "authentication failed for api"
  | _ => .ok (happyData s)

/-- The `fatalExec` run's final loop state (ample fuel: the loop breaks on
the third pass). -/
def fatalRun : Option OrchState :=
  runLoopFuel fatalExec dcfg none 30
    (initState dcfg (ProjectContext.create "req"))

/-- Claim C3 (amended): when a step's executor fails with an error
classified `recoverable = false`, the step is marked `failed` and the error
is recorded in the error log; the main loop breaks only when the thrown
message matches a fatal `isCriticalError` pattern — as here, where the
message contains `authentication failed` — and then no remaining step is
attempted and the executor was invoked exactly once in its single
retry-wrapper call; but the run's status remains `in_progress` after
finalization, not `failed` (the finalizer only sets `completed`). -/
theorem nonrecoverable_fatal_failure_breaks_run :
    (fatalRun.map (fun st => (st.ctx.workflow[2]?).map WorkflowStep.status))
      = some (some WStatus.failed) ∧
    (fatalRun.map (fun st => st.ctx.errors))
      = some [(Stage.architecture,
          "Critical error in architecture: authentication failed for api")] ∧
    (fatalRun.map (fun st => st.log))
      = some [(Stage.triage, 1), (Stage.research, 1), (Stage.architecture, 1)] ∧
    (fatalRun.map (fun st =>
        (st.ctx.workflow.drop 3).all (fun s => s.status == WStatus.pending)))
      = some true ∧
    (executeWorkflowFuel fatalExec dcfg none (ProjectContext.create "req") 30).map
        ProjectContext.status = some WStatus.in_progress := by
  refine ⟨by decide, by decide, by decide, by decide, by decide⟩

/-! ### Claim C2: scenario A (rewind on a failed verification) -/

/-- Scenario A executor: the testing stage reports one failed check on its
first call and zero failed checks afterwards; every other stage succeeds
cleanly. -/
def scenarioAExec : StageExec := fun s call _ =>
  match s with
  | .testing => if call == 0 then .ok (.test ⟨9, 1⟩) else .ok (.test ⟨10, 0⟩)
  | _ => .ok (happyData s)

/-- A fresh run state whose iteration budget (`maxIterations`) was set to 1
through `updateContext`. -/
def budget1 : ProjectContext :=
  { ProjectContext.create "req" with maxIterations := 1 }

/-- The scenario A run's final loop state (ample fuel: the loop exits after
five passes, when the budget check fails right after the rewind). -/
def scenarioARun : Option OrchState :=
  runLoopFuel scenarioAExec dcfg none 30 (initState dcfg budget1)

/-- Counterexample to claim C2 as stated: in scenario A with an iteration
budget of 1, the run does **not** complete with two build-stage and two
verify-stage executions — each stage's executor runs exactly once and the
final status is not `completed`, because after the rewind the `while`
guard `iterationCount < maxIterations` fails and the loop exits before the
second pass. -/
theorem scenarioA_two_executions_refuted :
    (scenarioARun.map (fun st => stageInvocations st.log Stage.implementation))
      = some 1 ∧
    (scenarioARun.map (fun st => stageInvocations st.log Stage.testing))
      = some 1 ∧
    (executeWorkflowFuel scenarioAExec dcfg none budget1 30).map
        ProjectContext.status ≠ some WStatus.completed := by
  refine ⟨by decide, by decide, by decide⟩

/-- Claim C2 (amended): in scenario A with an iteration budget of 1, the
iteration predicate does trigger once — `iterationCount` becomes 1 and the
cursor rewinds to the implementation ("build") step — but the loop then
exits immediately (the guard `iterationCount < maxIterations` fails), so
the second pass never happens: the build-stage and verify-stage executors
are invoked exactly once each and the run ends with status `in_progress`,
not `completed`. -/
theorem scenarioA_budget_exhausted_after_rewind :
    (scenarioARun.map (fun st => st.ctx.iterationCount)) = some 1 ∧
    (scenarioARun.map (fun st => st.ctx.currentStepIndex)) = some 3 ∧
    (scenarioARun.map (fun st =>
        (st.ctx.workflow[3]?).map WorkflowStep.stage))
      = some (some Stage.implementation) ∧
    (scenarioARun.map (fun st => stageInvocations st.log Stage.implementation))
      = some 1 ∧
    (scenarioARun.map (fun st => stageInvocations st.log Stage.testing))
      = some 1 ∧
    (executeWorkflowFuel scenarioAExec dcfg none budget1 30).map
        ProjectContext.status = some WStatus.in_progress := by
  refine ⟨by decide, by decide, by decide, by decide, by decide, by decide⟩

/-! ### Claim C4, concrete part: budget exhaustion does not mark the run
failed -/

/-- An executor whose testing stage always reports one failed check;
every other stage succeeds cleanly. -/
def alwaysFailTestsExec : StageExec := fun s _ _ =>
  match s with
  | .testing => .ok (.test ⟨9, 1⟩)
  | _ => .ok (happyData s)

/-- The final context of the always-failing-tests run with the default
budget of 3 (ample fuel: the loop exits on the eighth pass, when
`iterationCount` reaches `maxIterations`). -/
def exhaustedRun : Option ProjectContext :=
  executeWorkflowFuel alwaysFailTestsExec dcfg none (ProjectContext.create "req") 30

/-- Counterexample to claim C4 as stated: on a run that exhausts its
iteration budget (`iterationCount = maxIterations = 3`), the loop exits and
the run is finalized — but `finalizeWorkflow` leaves the status
`in_progress`, not `failed` (its non-completed branch only logs a
warning). -/
theorem budget_exhausted_run_not_marked_failed :
    exhaustedRun.map ProjectContext.iterationCount = some 3 ∧
    exhaustedRun.map ProjectContext.maxIterations = some 3 ∧
    exhaustedRun.map ProjectContext.status = some WStatus.in_progress ∧
    WStatus.in_progress ≠ WStatus.failed := by
  refine ⟨by decide, by decide, by decide, by decide⟩

/-! ### Claim C8: scenario B (approval declined) -/

/-- Configuration with `requireApproval = true` (the architecture and
devops steps are then flagged `requiresApproval`). -/
def approvalCfg : WorkflowConfig := { requireApproval := true }

/-- An injected decision function that declines every approval. -/
def declineHandler : ApprovalHandler := fun _ _ _ _ => false

/-- The declined run's final loop state (ample fuel: the loop breaks on the
third pass, at the architecture approval gate). -/
def declineRun : Option OrchState :=
  runLoopFuel happyExec approvalCfg (some declineHandler) 30
    (initState approvalCfg (ProjectContext.create "req"))

/-- Counterexample to claim C8 as stated: when the decision function
declines the architecture step's approval, the run's status does **not**
end as `failed` (it stays `in_progress`: the finalizer's non-completed
branch only warns) and the error log contains **no** approval-declined
entry (the decline path calls `updateStepStatus` but never `addError`, so
`errors` stays empty). -/
theorem approval_decline_status_errors_refuted :
    (executeWorkflowFuel happyExec approvalCfg (some declineHandler)
        (ProjectContext.create "req") 30).map ProjectContext.status
      = some WStatus.in_progress ∧
    (executeWorkflowFuel happyExec approvalCfg (some declineHandler)
        (ProjectContext.create "req") 30).map ProjectContext.errors
      = some [] ∧
    WStatus.in_progress ≠ WStatus.failed := by
  refine ⟨by decide, by decide, by decide⟩

/-- Claim C8 (amended): when the decision function declines the approval of
the `requiresApproval` architecture step, that step is marked `failed` with
error `"User approval declined"` and the main loop breaks: no later stage
executes (their steps stay `pending` and the ghost log stops at the
architecture call).  `pendingApprovals` is empty at the end — the
orchestrator's gate never calls `addApprovalRequest` — but the decline is
recorded only on the step: the error log stays empty, and the run's final
status is `in_progress`, not `failed`. -/
theorem approval_decline_scenario :
    (declineRun.map (fun st => (st.ctx.workflow[2]?).map WorkflowStep.status))
      = some (some WStatus.failed) ∧
    (declineRun.map (fun st => (st.ctx.workflow[2]?).map WorkflowStep.error))
      = some (some (some "User approval declined")) ∧
    (declineRun.map (fun st =>
        (st.ctx.workflow.drop 3).all (fun s => s.status == WStatus.pending)))
      = some true ∧
    (declineRun.map (fun st => st.log))
      = some [(Stage.triage, 1), (Stage.research, 1), (Stage.architecture, 1)] ∧
    (declineRun.map (fun st => st.ctx.pendingApprovals)) = some [] ∧
    (declineRun.map (fun st => st.ctx.errors)) = some [] ∧
    (executeWorkflowFuel happyExec approvalCfg (some declineHandler)
        (ProjectContext.create "req") 30).map ProjectContext.status
      = some WStatus.in_progress := by
  refine ⟨by decide, by decide, by decide, by decide, by decide, by decide,
    by decide⟩

/-! ### Claim C9: step status regression on rewind -/

/-- The run state at the iteration boundary after five passes of the
always-failing-tests run: the testing report triggered the PDCA rewind, the
cursor is back on the (completed) implementation step, and the loop guard
still holds. -/
def rewindBoundary : OrchState :=
  runLoopIter alwaysFailTestsExec dcfg none 5
    (initState dcfg (ProjectContext.create "req"))

/-- Counterexample to claim C9 as stated: after the rewind, the completed
implementation step (index 3) **returns to `in_progress`**: the loop guard
still holds with the cursor on it, and the very next action of the loop
body (`currentStep.status = IN_PROGRESS`, modelled by
`markCurrentStepInProgress`) moves its status from `completed` back to
`in_progress`. -/
theorem completed_step_returns_to_in_progress :
    (rewindBoundary.ctx.workflow[3]?).map WorkflowStep.status
      = some WStatus.completed ∧
    rewindBoundary.ctx.currentStepIndex = 3 ∧
    loopGuard rewindBoundary.ctx = true ∧
    ((markCurrentStepInProgress rewindBoundary.ctx).workflow[3]?).map
        WorkflowStep.status = some WStatus.in_progress := by
  refine ⟨by decide, by decide, by decide, by decide⟩

/-! ### Field-preservation lemmas for the context transformers -/

@[simp] theorem markInProgress_iterationCount (ctx : ProjectContext) :
    (markCurrentStepInProgress ctx).iterationCount = ctx.iterationCount := by
  unfold markCurrentStepInProgress; split <;> rfl

@[simp] theorem markInProgress_maxIterations (ctx : ProjectContext) :
    (markCurrentStepInProgress ctx).maxIterations = ctx.maxIterations := by
  unfold markCurrentStepInProgress; split <;> rfl

@[simp] theorem markInProgress_pendingApprovals (ctx : ProjectContext) :
    (markCurrentStepInProgress ctx).pendingApprovals = ctx.pendingApprovals := by
  unfold markCurrentStepInProgress; split <;> rfl

@[simp] theorem markInProgress_status (ctx : ProjectContext) :
    (markCurrentStepInProgress ctx).status = ctx.status := by
  unfold markCurrentStepInProgress; split <;> rfl

@[simp] theorem storeResult_iterationCount (ctx : ProjectContext) (s : Stage)
    (d : Option AgentData) :
    (storeResult ctx s d).iterationCount = ctx.iterationCount := by
  cases s <;> rfl

@[simp] theorem storeResult_maxIterations (ctx : ProjectContext) (s : Stage)
    (d : Option AgentData) :
    (storeResult ctx s d).maxIterations = ctx.maxIterations := by
  cases s <;> rfl

@[simp] theorem storeResult_pendingApprovals (ctx : ProjectContext) (s : Stage)
    (d : Option AgentData) :
    (storeResult ctx s d).pendingApprovals = ctx.pendingApprovals := by
  cases s <;> rfl

@[simp] theorem storeResult_status (ctx : ProjectContext) (s : Stage)
    (d : Option AgentData) :
    (storeResult ctx s d).status = ctx.status := by
  cases s <;> rfl

@[simp] theorem storeResult_workflow (ctx : ProjectContext) (s : Stage)
    (d : Option AgentData) :
    (storeResult ctx s d).workflow = ctx.workflow := by
  cases s <;> rfl

@[simp] theorem updateStepStatus_iterationCount (ctx : ProjectContext)
    (stepId : Nat) (st : WStatus) (r : Option AgentData) (e : Option String) :
    (ctx.updateStepStatus stepId st r e).iterationCount = ctx.iterationCount := rfl

@[simp] theorem updateStepStatus_maxIterations (ctx : ProjectContext)
    (stepId : Nat) (st : WStatus) (r : Option AgentData) (e : Option String) :
    (ctx.updateStepStatus stepId st r e).maxIterations = ctx.maxIterations := rfl

@[simp] theorem updateStepStatus_pendingApprovals (ctx : ProjectContext)
    (stepId : Nat) (st : WStatus) (r : Option AgentData) (e : Option String) :
    (ctx.updateStepStatus stepId st r e).pendingApprovals = ctx.pendingApprovals := rfl

@[simp] theorem updateStepStatus_status (ctx : ProjectContext)
    (stepId : Nat) (st : WStatus) (r : Option AgentData) (e : Option String) :
    (ctx.updateStepStatus stepId st r e).status = ctx.status := rfl

@[simp] theorem addError_iterationCount (ctx : ProjectContext) (s : Stage)
    (e : String) : (ctx.addError s e).iterationCount = ctx.iterationCount := rfl

@[simp] theorem addError_maxIterations (ctx : ProjectContext) (s : Stage)
    (e : String) : (ctx.addError s e).maxIterations = ctx.maxIterations := rfl

@[simp] theorem addError_pendingApprovals (ctx : ProjectContext) (s : Stage)
    (e : String) : (ctx.addError s e).pendingApprovals = ctx.pendingApprovals := rfl

@[simp] theorem addError_status (ctx : ProjectContext) (s : Stage)
    (e : String) : (ctx.addError s e).status = ctx.status := rfl

@[simp] theorem moveToNextStep_iterationCount (ctx : ProjectContext) :
    ctx.moveToNextStep.iterationCount = ctx.iterationCount := by
  unfold ProjectContext.moveToNextStep; split <;> rfl

@[simp] theorem moveToNextStep_maxIterations (ctx : ProjectContext) :
    ctx.moveToNextStep.maxIterations = ctx.maxIterations := by
  unfold ProjectContext.moveToNextStep; split <;> rfl

@[simp] theorem moveToNextStep_pendingApprovals (ctx : ProjectContext) :
    ctx.moveToNextStep.pendingApprovals = ctx.pendingApprovals := by
  unfold ProjectContext.moveToNextStep; split <;> rfl

@[simp] theorem moveToNextStep_status (ctx : ProjectContext) :
    ctx.moveToNextStep.status = ctx.status := by
  unfold ProjectContext.moveToNextStep; split <;> rfl

@[simp] theorem handleIterationLoop_maxIterations (ctx : ProjectContext) :
    (handleIterationLoop ctx).maxIterations = ctx.maxIterations := by
  unfold handleIterationLoop
  dsimp only
  split
  · split <;> rfl
  · rfl

@[simp] theorem handleIterationLoop_pendingApprovals (ctx : ProjectContext) :
    (handleIterationLoop ctx).pendingApprovals = ctx.pendingApprovals := by
  unfold handleIterationLoop
  dsimp only
  split
  · split <;> rfl
  · rfl

@[simp] theorem handleIterationLoop_status (ctx : ProjectContext) :
    (handleIterationLoop ctx).status = ctx.status := by
  unfold handleIterationLoop
  dsimp only
  split
  · split <;> rfl
  · rfl

/-- The guarded increment keeps the iteration count within the budget. -/
theorem handleIterationLoop_iteration_bound (ctx : ProjectContext)
    (hb : ctx.iterationCount ≤ ctx.maxIterations) :
    (handleIterationLoop ctx).iterationCount
      ≤ (handleIterationLoop ctx).maxIterations := by
  unfold handleIterationLoop
  dsimp only
  split
  · rename_i hc
    have hlt : ctx.iterationCount < ctx.maxIterations := by
      simpa [ProjectContext.shouldContinueIterations] using hc
    split <;> simp [ProjectContext.incrementIteration] <;> omega
  · simpa using hb

@[simp] theorem approveStep_iterationCount (ctx : ProjectContext) (stepId : Nat) :
    (ctx.approveStep stepId).iterationCount = ctx.iterationCount := rfl

@[simp] theorem approveStep_maxIterations (ctx : ProjectContext) (stepId : Nat) :
    (ctx.approveStep stepId).maxIterations = ctx.maxIterations := rfl

/-- Approving a step of a run with no pending approvals leaves none
pending. -/
theorem approveStep_pendingApprovals_nil (ctx : ProjectContext) (stepId : Nat)
    (h : ctx.pendingApprovals = []) :
    (ctx.approveStep stepId).pendingApprovals = [] := by
  unfold ProjectContext.approveStep
  simp [h]

/-- Approving a step of a run with no pending approvals sets the status to
`in_progress`. -/
theorem approveStep_status_nil (ctx : ProjectContext) (stepId : Nat)
    (h : ctx.pendingApprovals = []) :
    (ctx.approveStep stepId).status = WStatus.in_progress := by
  unfold ProjectContext.approveStep
  simp [h]

@[simp] theorem finalizeWorkflow_iterationCount (ctx : ProjectContext) :
    (finalizeWorkflow ctx).iterationCount = ctx.iterationCount := by
  unfold finalizeWorkflow; split <;> rfl

@[simp] theorem finalizeWorkflow_maxIterations (ctx : ProjectContext) :
    (finalizeWorkflow ctx).maxIterations = ctx.maxIterations := by
  unfold finalizeWorkflow; split <;> rfl

@[simp] theorem finalizeWorkflow_pendingApprovals (ctx : ProjectContext) :
    (finalizeWorkflow ctx).pendingApprovals = ctx.pendingApprovals := by
  unfold finalizeWorkflow; split <;> rfl

/-- The finalizer never produces `requires_approval`: it either sets
`completed` or leaves the status unchanged. -/
theorem finalizeWorkflow_status_cases (ctx : ProjectContext) :
    (finalizeWorkflow ctx).status = WStatus.completed ∨
    (finalizeWorkflow ctx).status = ctx.status := by
  unfold finalizeWorkflow
  split
  · exact Or.inl rfl
  · exact Or.inr rfl

/-- Lemma: `executeCurrentStep` touches only the workflow steps, the ghost log and
the result slots: the iteration counters, the pending approvals and the run
status are untouched. -/
theorem executeCurrentStep_core (e : StageExec) (st : OrchState) :
    ((executeCurrentStep e st).1.ctx.iterationCount = st.ctx.iterationCount) ∧
    ((executeCurrentStep e st).1.ctx.maxIterations = st.ctx.maxIterations) ∧
    ((executeCurrentStep e st).1.ctx.pendingApprovals = st.ctx.pendingApprovals) ∧
    ((executeCurrentStep e st).1.ctx.status = st.ctx.status) := by
  unfold executeCurrentStep
  cases hscrut : st.ctx.workflow[st.ctx.currentStepIndex]? with
  | none => exact ⟨rfl, rfl, rfl, rfl⟩
  | some s =>
      simp only []
      split
      · split
        · refine ⟨?_, ?_, ?_, ?_⟩ <;> simp
        · split <;> (refine ⟨?_, ?_, ?_, ?_⟩ <;> simp)
      · refine ⟨?_, ?_, ?_, ?_⟩ <;> simp

@[simp] theorem afterQualityCheck_pendingApprovals (st : OrchState) :
    (afterQualityCheck st).ctx.pendingApprovals = st.ctx.pendingApprovals := by
  unfold afterQualityCheck; split <;> simp

@[simp] theorem afterQualityCheck_status (st : OrchState) :
    (afterQualityCheck st).ctx.status = st.ctx.status := by
  unfold afterQualityCheck; split <;> simp

@[simp] theorem afterQualityCheck_maxIterations (st : OrchState) :
    (afterQualityCheck st).ctx.maxIterations = st.ctx.maxIterations := by
  unfold afterQualityCheck; split <;> simp

/-- The quality-gate tail keeps the iteration count within the budget. -/
theorem afterQualityCheck_iteration_bound (st : OrchState)
    (hb : st.ctx.iterationCount ≤ st.ctx.maxIterations) :
    (afterQualityCheck st).ctx.iterationCount
      ≤ (afterQualityCheck st).ctx.maxIterations := by
  unfold afterQualityCheck
  split
  · exact handleIterationLoop_iteration_bound _ hb
  · simpa using hb

/-- One loop pass keeps the iteration count within the budget: the only
increment is the one guarded by `shouldContinueIterations`. -/
theorem loopBody_iteration_bound (e : StageExec) (cfg : WorkflowConfig)
    (hnd : Option ApprovalHandler) (st : OrchState)
    (hb : st.ctx.iterationCount ≤ st.ctx.maxIterations) :
    (loopBody e cfg hnd st).1.ctx.iterationCount
      ≤ (loopBody e cfg hnd st).1.ctx.maxIterations := by
  obtain ⟨h1, h2, h3, h4⟩ := executeCurrentStep_core e st
  unfold loopBody
  cases hscrut : st.ctx.workflow[st.ctx.currentStepIndex]? with
  | none => simpa using hb
  | some s =>
      dsimp only
      split
      · rename_i msg heq
        simp only [updateStepStatus_iterationCount, addError_iterationCount,
          updateStepStatus_maxIterations, addError_maxIterations]
        rw [h1, h2]; exact hb
      · split
        · split
          · apply afterQualityCheck_iteration_bound
            simp only [approveStep_iterationCount, approveStep_maxIterations]
            rw [h1, h2]; exact hb
          · simp only [updateStepStatus_iterationCount,
              updateStepStatus_maxIterations]
            rw [h1, h2]; exact hb
        · apply afterQualityCheck_iteration_bound
          rw [h1, h2]; exact hb

/-- One loop pass of a run with no pending approvals leaves none pending
and never produces the `requires_approval` status. -/
theorem loopBody_approval_invariant (e : StageExec) (cfg : WorkflowConfig)
    (hnd : Option ApprovalHandler) (st : OrchState)
    (hp : st.ctx.pendingApprovals = [])
    (hs : st.ctx.status ≠ WStatus.requires_approval) :
    (loopBody e cfg hnd st).1.ctx.pendingApprovals = [] ∧
    (loopBody e cfg hnd st).1.ctx.status ≠ WStatus.requires_approval := by
  obtain ⟨h1, h2, h3, h4⟩ := executeCurrentStep_core e st
  unfold loopBody
  cases hscrut : st.ctx.workflow[st.ctx.currentStepIndex]? with
  | none => exact ⟨hp, hs⟩
  | some s =>
      dsimp only
      split
      · rename_i msg heq
        constructor
        · simp only [updateStepStatus_pendingApprovals, addError_pendingApprovals]
          rw [h3]; exact hp
        · simp only [updateStepStatus_status, addError_status]
          rw [h4]; exact hs
      · split
        · split
          · constructor
            · simp only [afterQualityCheck_pendingApprovals]
              exact approveStep_pendingApprovals_nil _ _ (by rw [h3]; exact hp)
            · simp only [afterQualityCheck_status]
              rw [approveStep_status_nil _ _ (by rw [h3]; exact hp)]
              intro hcontra
              exact absurd hcontra (by simp)
          · constructor
            · simp only [updateStepStatus_pendingApprovals]
              rw [h3]; exact hp
            · simp only [updateStepStatus_status]
              rw [h4]; exact hs
        · constructor
          · simp only [afterQualityCheck_pendingApprovals]
            rw [h3]; exact hp
          · simp only [afterQualityCheck_status]
            rw [h4]; exact hs

/-- The iteration bound is preserved across any number of loop passes. -/
theorem runLoopIter_iteration_bound (e : StageExec) (cfg : WorkflowConfig)
    (hnd : Option ApprovalHandler) :
    ∀ (n : Nat) (st : OrchState),
    st.ctx.iterationCount ≤ st.ctx.maxIterations →
    (runLoopIter e cfg hnd n st).ctx.iterationCount
      ≤ (runLoopIter e cfg hnd n st).ctx.maxIterations
  | 0, st, hb => hb
  | n + 1, st, hb => by
      unfold runLoopIter
      split
      · split
        · exact hb
        · dsimp only
          split
          · exact loopBody_iteration_bound e cfg hnd st hb
          · exact runLoopIter_iteration_bound e cfg hnd n _
              (loopBody_iteration_bound e cfg hnd st hb)
      · exact hb

/-- The no-pending-approvals invariant is preserved across any number of
loop passes. -/
theorem runLoopIter_approval_invariant (e : StageExec) (cfg : WorkflowConfig)
    (hnd : Option ApprovalHandler) :
    ∀ (n : Nat) (st : OrchState),
    st.ctx.pendingApprovals = [] →
    st.ctx.status ≠ WStatus.requires_approval →
    (runLoopIter e cfg hnd n st).ctx.pendingApprovals = [] ∧
    (runLoopIter e cfg hnd n st).ctx.status ≠ WStatus.requires_approval
  | 0, st, hp, hs => ⟨hp, hs⟩
  | n + 1, st, hp, hs => by
      unfold runLoopIter
      split
      · split
        · exact ⟨hp, hs⟩
        · dsimp only
          split
          · exact loopBody_approval_invariant e cfg hnd st hp hs
          · obtain ⟨hp2, hs2⟩ := loopBody_approval_invariant e cfg hnd st hp hs
            exact runLoopIter_approval_invariant e cfg hnd n _ hp2 hs2
      · exact ⟨hp, hs⟩

/-- Claim C4 (amended): in every state reachable by loop passes from a
state within budget, `iterationCount` never exceeds `maxIterations`; once
the budget is exhausted (`shouldContinueIterations` false), the iteration
handler is the identity — no increment and no cursor rewind even when the
predicate is true — and the loop's `while` guard fails, so the run
proceeds to finalization; but for a run with a non-completed step the
finalizer leaves the status unchanged (`in_progress`), not `failed`. -/
theorem iteration_bound_and_finalization (e : StageExec) (cfg : WorkflowConfig)
    (hnd : Option ApprovalHandler) (n : Nat) (st : OrchState)
    (hb : st.ctx.iterationCount ≤ st.ctx.maxIterations) :
    ((runLoopIter e cfg hnd n st).ctx.iterationCount
      ≤ (runLoopIter e cfg hnd n st).ctx.maxIterations) ∧
    (∀ ctx : ProjectContext, ctx.shouldContinueIterations = false →
      handleIterationLoop ctx = ctx) ∧
    (∀ ctx : ProjectContext,
      (ctx.workflow.all fun s => s.status == WStatus.completed) = false →
      (finalizeWorkflow ctx).status = ctx.status) := by
  refine ⟨runLoopIter_iteration_bound e cfg hnd n st hb, ?_, ?_⟩
  · intro ctx hc
    unfold handleIterationLoop
    rw [hc]
    simp
  · intro ctx hc
    unfold finalizeWorkflow
    rw [hc]
    simp

/-- Witness for C4 (amended) at concrete inputs: the always-failing-tests
run stays within its budget of 3 after ten passes; a zero-budget context is
untouched by the iteration handler; and finalizing a freshly initialized
(non-completed) run leaves its status unchanged. -/
theorem iteration_bound_and_finalization_witness :
    ((runLoopIter alwaysFailTestsExec dcfg none 10
        (initState dcfg (ProjectContext.create "req"))).ctx.iterationCount
      ≤ (runLoopIter alwaysFailTestsExec dcfg none 10
        (initState dcfg (ProjectContext.create "req"))).ctx.maxIterations) ∧
    (handleIterationLoop { ProjectContext.create "w" with maxIterations := 0 }
      = { ProjectContext.create "w" with maxIterations := 0 }) ∧
    ((finalizeWorkflow (initializeWorkflow dcfg (ProjectContext.create "w"))).status
      = (initializeWorkflow dcfg (ProjectContext.create "w")).status) :=
  ⟨(iteration_bound_and_finalization alwaysFailTestsExec dcfg none 10
      (initState dcfg (ProjectContext.create "req")) (by decide)).1,
   (iteration_bound_and_finalization alwaysFailTestsExec dcfg none 10
      (initState dcfg (ProjectContext.create "req")) (by decide)).2.1
      { ProjectContext.create "w" with maxIterations := 0 } (by decide),
   (iteration_bound_and_finalization alwaysFailTestsExec dcfg none 10
      (initState dcfg (ProjectContext.create "req")) (by decide)).2.2
      (initializeWorkflow dcfg (ProjectContext.create "w")) (by decide)⟩

/-- Claim C10: along every run driven by `executeWorkflow` from a fresh
context, `pendingApprovals` is empty at every loop boundary and after
finalization, and the run status never takes the value
`requires_approval`: the orchestrator's approval gate decides via the
injected handler (or auto-approves) and never calls the state object's
`addApprovalRequest`, and `approveStep` on an empty pending list keeps it
empty and sets `in_progress`. -/
theorem run_pendingApprovals_empty_and_never_requires_approval
    (e : StageExec) (cfg : WorkflowConfig) (hnd : Option ApprovalHandler)
    (req : String) (n : Nat) :
    ((runLoopIter e cfg hnd n
        (initState cfg (ProjectContext.create req))).ctx.pendingApprovals = [] ∧
     (runLoopIter e cfg hnd n
        (initState cfg (ProjectContext.create req))).ctx.status
       ≠ WStatus.requires_approval) ∧
    ((finalizeWorkflow (runLoopIter e cfg hnd n
        (initState cfg (ProjectContext.create req))).ctx).pendingApprovals = [] ∧
     (finalizeWorkflow (runLoopIter e cfg hnd n
        (initState cfg (ProjectContext.create req))).ctx).status
       ≠ WStatus.requires_approval) := by
  have hinit_p : (initState cfg (ProjectContext.create req)).ctx.pendingApprovals
      = [] := rfl
  have hinit_s : (initState cfg (ProjectContext.create req)).ctx.status
      = WStatus.in_progress := rfl
  have h := runLoopIter_approval_invariant e cfg hnd n
    (initState cfg (ProjectContext.create req)) hinit_p
    (by rw [hinit_s]; intro hcontra; exact absurd hcontra (by simp))
  refine ⟨h, ?_, ?_⟩
  · rw [finalizeWorkflow_pendingApprovals]
    exact h.1
  · rcases finalizeWorkflow_status_cases
      (runLoopIter e cfg hnd n (initState cfg (ProjectContext.create req))).ctx
      with hc | hc
    · rw [hc]; intro hcontra; exact absurd hcontra (by simp)
    · rw [hc]; exact h.2

/-- Lemma: `updateStepList` rewrites the first step matching the id in place, so
`find?` on the result returns that step transformed (for id-preserving
transformations). -/
theorem updateStepList_find (stepId : Nat) (f : WorkflowStep → WorkflowStep)
    (hf : ∀ s, (f s).id = s.id) :
    ∀ l : List WorkflowStep,
    (updateStepList stepId f l).find? (fun s => s.id == stepId)
      = (l.find? (fun s => s.id == stepId)).map f
  | [] => rfl
  | s :: rest => by
      by_cases h : s.id = stepId
      · unfold updateStepList
        rw [if_pos h]
        rw [List.find?_cons_of_pos _ (by simp [hf, h]),
            List.find?_cons_of_pos _ (by simp [h])]
        simp
      · unfold updateStepList
        rw [if_neg h]
        rw [List.find?_cons_of_neg _ (by simp [h]),
            List.find?_cons_of_neg _ (by simp [h])]
        exact updateStepList_find stepId f hf rest

/-- After `updateStepStatus`, the first step with the given id carries the
new status (provided some step matches). -/
theorem updateStepStatus_find_status (ctx : ProjectContext) (stepId : Nat)
    (status : WStatus) (r : Option AgentData) (e : Option String)
    (hsome : ((ctx.workflow.find? (fun s => s.id == stepId)).isSome) = true) :
    (((ctx.updateStepStatus stepId status r e).workflow.find?
        (fun s => s.id == stepId)).map WorkflowStep.status) = some status := by
  unfold ProjectContext.updateStepStatus
  dsimp only
  rw [updateStepList_find stepId (fun s =>
    { s with status := status,
             result := if r.isSome then r else s.result,
             error := if e.isSome then e else s.error }) (fun s => rfl)]
  obtain ⟨x, hx⟩ := Option.isSome_iff_exists.mp hsome
  rw [hx]
  rfl

/-- Claim C9 (amended): within a single execution pass, a step's status
follows the order of the source: the pass first sets the current step to
`in_progress` (from whatever status it had — `pending` on the first visit,
`completed` or `failed` when the pass re-executes the step after a rewind
or a non-breaking failure), and by the end of `executeCurrentStep` that
step is `completed` (success) or `failed` (failure); the strict
no-return-to-`in_progress` ordering of the claim holds only per pass, not
across passes. -/
theorem step_status_within_pass (e : StageExec) (st : OrchState)
    (stp : WorkflowStep)
    (hcur : st.ctx.workflow[st.ctx.currentStepIndex]? = some stp) :
    ((markCurrentStepInProgress st.ctx).workflow[st.ctx.currentStepIndex]?).map
        WorkflowStep.status = some WStatus.in_progress ∧
    ((((executeCurrentStep e st).1.ctx.workflow.find?
        (fun s => s.id == stp.id)).map WorkflowStep.status)
        = some WStatus.completed ∨
     (((executeCurrentStep e st).1.ctx.workflow.find?
        (fun s => s.id == stp.id)).map WorkflowStep.status)
        = some WStatus.failed) := by
  have hlt : st.ctx.currentStepIndex < st.ctx.workflow.length :=
    (List.getElem?_eq_some.mp hcur).1
  have hmark : (markCurrentStepInProgress st.ctx).workflow[st.ctx.currentStepIndex]?
      = some { stp with status := WStatus.in_progress } := by
    unfold markCurrentStepInProgress
    rw [hcur]
    exact List.getElem?_set_eq_of_lt _ hlt
  have hmem : ({ stp with status := WStatus.in_progress } : WorkflowStep)
      ∈ (markCurrentStepInProgress st.ctx).workflow :=
    List.getElem?_mem hmark
  have hsome : ((markCurrentStepInProgress st.ctx).workflow.find?
      (fun s => s.id == stp.id)).isSome = true := by
    rw [List.find?_isSome]
    exact ⟨_, hmem, by simp⟩
  constructor
  · rw [hmark]; rfl
  · unfold executeCurrentStep
    rw [hcur]
    dsimp only
    split
    · split
      · left
        apply updateStepStatus_find_status
        rw [storeResult_workflow]
        exact hsome
      · split
        · right
          apply updateStepStatus_find_status
          exact hsome
        · right
          apply updateStepStatus_find_status
          exact hsome
    · right
      apply updateStepStatus_find_status
      exact hsome

/-- Witness for C9 (amended) at a concrete input: the fresh run's triage
step is set `in_progress` by the marking step and ends the pass
`completed` or `failed`. -/
theorem step_status_within_pass_witness :
    (((markCurrentStepInProgress
        (initState dcfg (ProjectContext.create "req")).ctx).workflow[
          (initState dcfg (ProjectContext.create "req")).ctx.currentStepIndex]?).map
        WorkflowStep.status = some WStatus.in_progress) ∧
    ((((executeCurrentStep happyExec
          (initState dcfg (ProjectContext.create "req"))).1.ctx.workflow.find?
        (fun s => s.id == (0 : Nat))).map WorkflowStep.status)
        = some WStatus.completed ∨
     (((executeCurrentStep happyExec
          (initState dcfg (ProjectContext.create "req"))).1.ctx.workflow.find?
        (fun s => s.id == (0 : Nat))).map WorkflowStep.status)
        = some WStatus.failed) :=
  step_status_within_pass happyExec (initState dcfg (ProjectContext.create "req"))
    { id := 0, stage := Stage.triage, status := WStatus.pending,
      agentName := "Triage", requiresApproval := false } (by decide)

end StrongAgent
